import Mathlib

/-!
Verification of the `cairo-rs` excerpt: the field-element constants and
backend-conformance scaffolding of `felt/src/lib.rs`, and the dictionary
manager of `src/hint_processor/builtin_hint_processor/dict_manager.rs`.

Rust's `&mut` state is modelled by explicit state passing: a method that
mutates `self` (and possibly the VM) returns the updated values alongside
its result.  `Result<T, E>` is modelled by `Except E T`.  `HashMap` is
modelled by an association list treated as an unordered key-to-value map.
-/

/-- The Cairo field prime P = 2^251 + 17·2^192 + 1.  Modelled from the spec:
the concrete backend (`bigint_felt.rs` / `ibig_felt.rs`) holding the prime is
not part of the excerpt; the spec fixes P's value. -/
def PRIME : Nat := 2 ^ 251 + 17 * 2 ^ 192 + 1

theorem PRIME_pos : 0 < PRIME := Nat.succ_pos _

/-- `Felt`: an integer fully reduced modulo `PRIME` (field `felt::Felt`). -/
abbrev Felt := Fin PRIME

/-- `Felt::new`: construct a field element from an integer, reducing mod P. -/
def Felt.new (n : Nat) : Felt := ⟨n % PRIME, Nat.mod_lt n PRIME_pos⟩

/-- Association list modelling Rust's `HashMap`: an unordered key-to-value
map; only membership and value equality are meaningful, never order. -/
structure AssocMap (α β : Type) where
  entries : List (α × β)
deriving DecidableEq

/-- `HashMap::get`. -/
def AssocMap.get? {α β : Type} [DecidableEq α] (m : AssocMap α β) (k : α) : Option β :=
  (m.entries.find? fun p => decide (p.1 = k)).map fun p => p.2

/-- `HashMap::insert`: upsert, replacing any previous binding of the key. -/
def AssocMap.insert {α β : Type} [DecidableEq α] (m : AssocMap α β) (k : α) (v : β) : AssocMap α β :=
  ⟨(k, v) :: m.entries.filter fun p => decide (p.1 ≠ k)⟩

/-- `HashMap::contains_key`. -/
def AssocMap.contains {α β : Type} [DecidableEq α] (m : AssocMap α β) (k : α) : Bool :=
  m.entries.any fun p => decide (p.1 = k)

/-- `HashMap::new`. -/
def AssocMap.empty {α β : Type} : AssocMap α β := ⟨[]⟩

theorem AssocMap.get?_insert_self {α β : Type} [DecidableEq α] (m : AssocMap α β) (k : α) (v : β) :
    AssocMap.get? (AssocMap.insert m k v) k = some v := by
  simp [AssocMap.get?, AssocMap.insert, List.find?]

abbrev HMap := AssocMap Felt Felt

/-- `Relocatable`: `(segment_index: isize, offset: usize)`. -/
structure Relocatable where
  segment_index : Int
  offset : Nat
deriving DecidableEq

/-- `MaybeRelocatable`: either a field element or a relocatable address. -/
inductive MaybeRelocatable where
  | Int (f : Felt)
  | RelocatableValue (r : Relocatable)
deriving DecidableEq

/-- Modelled from the spec: the VM memory-error variant carried when an
address lies in a temporary (negative-index) segment; the error enums of the
`vm::errors` modules are not part of the excerpt. -/
inductive MemoryError where
  | AddressInTemporarySegment (i : Int)
deriving DecidableEq

/-- Modelled from the spec: the VM-error wrapper around memory errors. -/
inductive VirtualMachineError where
  | MemoryError (e : MemoryError)
deriving DecidableEq

/-- The hint-error variants used by the dictionary manager.  The
data-carrying shapes follow the call sites in `dict_manager.rs`; the
`Internal` wrapper models the `?`-conversion from `VirtualMachineError`,
whose definition is not part of the excerpt (modelled from the spec:
address-validity failures surface as a distinct error). -/
inductive HintError where
  | CantCreateDictionaryOnTakenSegment (i : Int)
  | NoDictTracker (i : Int)
  | MismatchedDictPtr (expected got : Relocatable)
  | NoValueForKey (k : Felt)
  | Internal (e : VirtualMachineError)
deriving DecidableEq

/-- Modelled from the spec: the VM state seen by the dictionary manager is
just its segment counter.  `add_memory_segment` returns the base of a fresh
segment, with strictly increasing indices starting at 0 for a fresh VM.  The
counter is an `Int` so that the defensive hypothetical the spec insists on —
the allocator handing back a negative (temporary) index — is expressible. -/
structure VirtualMachine where
  num_segments : Int
deriving DecidableEq

/-- Modelled from the spec: `add_memory_segment() -> Relocatable` allocates a
fresh segment and returns its base `(num_segments, 0)`. -/
def VirtualMachine.add_memory_segment (vm : VirtualMachine) :
    Relocatable × VirtualMachine :=
  (⟨vm.num_segments, 0⟩, ⟨vm.num_segments + 1⟩)

/-- `Dictionary`: a simple map, or a map with a materializing default. -/
inductive Dictionary where
  | SimpleDictionary (dict : HMap)
  | DefaultDictionary (dict : HMap) (default_value : Felt)
deriving DecidableEq

/-- `Dictionary::get(&mut self, key)`: on a `DefaultDictionary`, a missing
key is inserted with the default and returned (`entry(..).or_insert_with`).
The possibly-updated dictionary is returned alongside the result. -/
def Dictionary.get (d : Dictionary) (key : Felt) : Option Felt × Dictionary :=
  match d with
  | .SimpleDictionary dict => (AssocMap.get? dict key, .SimpleDictionary dict)
  | .DefaultDictionary dict default_value =>
    match AssocMap.get? dict key with
    | some v => (some v, .DefaultDictionary dict default_value)
    | none =>
      (some default_value,
       .DefaultDictionary (AssocMap.insert dict key default_value) default_value)

/-- `Dictionary::insert`: unconditional upsert in either mode. -/
def Dictionary.insert (d : Dictionary) (key value : Felt) : Dictionary :=
  match d with
  | .SimpleDictionary dict => .SimpleDictionary (AssocMap.insert dict key value)
  | .DefaultDictionary dict default_value =>
    .DefaultDictionary (AssocMap.insert dict key value) default_value

/-- `DictTracker`: one dictionary plus the expected current pointer. -/
structure DictTracker where
  data : Dictionary
  current_ptr : Relocatable
deriving DecidableEq

/-- `DictTracker::new_empty`. -/
def DictTracker.new_empty (base : Relocatable) : DictTracker :=
  { data := .SimpleDictionary AssocMap.empty, current_ptr := base }

/-- `DictTracker::new_default_dict`. -/
def DictTracker.new_default_dict (base : Relocatable) (default_value : Felt)
    (initial_dict : Option HMap) : DictTracker :=
  { data := .DefaultDictionary
      (match initial_dict with
       | some dict => dict
       | none => AssocMap.empty)
      default_value,
    current_ptr := base }

/-- `DictTracker::new_with_initial`. -/
def DictTracker.new_with_initial (base : Relocatable) (initial_dict : HMap) :
    DictTracker :=
  { data := .SimpleDictionary initial_dict, current_ptr := base }

/-- `DictTracker::get_dictionary_copy`: the raw map, mode forgotten. -/
def DictTracker.get_dictionary_copy (t : DictTracker) : HMap :=
  match t.data with
  | .SimpleDictionary dict => dict
  | .DefaultDictionary dict _ => dict

/-- `DictTracker::get_value(&mut self, key)`: `data.get(key)` with a miss
turned into `NoValueForKey`; returns the possibly-updated tracker. -/
def DictTracker.get_value (t : DictTracker) (key : Felt) :
    Except HintError Felt × DictTracker :=
  match Dictionary.get t.data key with
  | (some v, d) => (.ok v, { t with data := d })
  | (none, d) => (.error (.NoValueForKey key), { t with data := d })

/-- `DictTracker::insert_value`. -/
def DictTracker.insert_value (t : DictTracker) (key val : Felt) : DictTracker :=
  { t with data := Dictionary.insert t.data key val }

/-- `DictManager`: all trackers, indexed by segment index. -/
structure DictManager where
  trackers : AssocMap Int DictTracker
deriving DecidableEq

/-- `DictManager::new`. -/
def DictManager.new : DictManager := { trackers := AssocMap.empty }

/-- `DictManager::new_dict`: allocate a fresh segment, fail if its index is
already tracked, fail if the index is negative, otherwise install a
`SimpleDictionary` tracker seeded with `initial_dict` and return the base. -/
def DictManager.new_dict (self : DictManager) (vm : VirtualMachine)
    (initial_dict : HMap) :
    Except HintError MaybeRelocatable × DictManager × VirtualMachine :=
  let p := vm.add_memory_segment
  let base := p.1
  let vm := p.2
  if AssocMap.contains self.trackers base.segment_index then
    (.error (.CantCreateDictionaryOnTakenSegment base.segment_index), self, vm)
  else if base.segment_index < 0 then
    (.error (.Internal (.MemoryError (.AddressInTemporarySegment base.segment_index))),
     self, vm)
  else
    (.ok (.RelocatableValue base),
     { trackers := AssocMap.insert self.trackers base.segment_index
         (DictTracker.new_with_initial base initial_dict) },
     vm)

/-- `DictManager::new_default_dict`: allocate a fresh segment, fail if its
index is already tracked, otherwise install a `DefaultDictionary` tracker.
Note: unlike `new_dict`, the source has no negative-segment-index check. -/
def DictManager.new_default_dict (self : DictManager) (vm : VirtualMachine)
    (default_value : Felt) (initial_dict : Option HMap) :
    Except HintError MaybeRelocatable × DictManager × VirtualMachine :=
  let p := vm.add_memory_segment
  let base := p.1
  let vm := p.2
  if AssocMap.contains self.trackers base.segment_index then
    (.error (.CantCreateDictionaryOnTakenSegment base.segment_index), self, vm)
  else
    (.ok (.RelocatableValue base),
     { trackers := AssocMap.insert self.trackers base.segment_index
         (DictTracker.new_default_dict base default_value initial_dict) },
     vm)

/-- `DictManager::get_tracker_mut`: resolve the pointer's segment to a
tracker, then require the tracker's `current_ptr` to equal the pointer. -/
def DictManager.get_tracker_mut (self : DictManager) (dict_ptr : Relocatable) :
    Except HintError DictTracker :=
  match AssocMap.get? self.trackers dict_ptr.segment_index with
  | none => .error (.NoDictTracker dict_ptr.segment_index)
  | some tracker =>
    if tracker.current_ptr ≠ dict_ptr then
      .error (.MismatchedDictPtr tracker.current_ptr dict_ptr)
    else
      .ok tracker

/-- `DictManager::get_tracker`: same resolution as `get_tracker_mut`. -/
def DictManager.get_tracker (self : DictManager) (dict_ptr : Relocatable) :
    Except HintError DictTracker :=
  match AssocMap.get? self.trackers dict_ptr.segment_index with
  | none => .error (.NoDictTracker dict_ptr.segment_index)
  | some tracker =>
    if tracker.current_ptr ≠ dict_ptr then
      .error (.MismatchedDictPtr tracker.current_ptr dict_ptr)
    else
      .ok tracker

/-- `felt::PRIME_STR` transcribed from the source. -/
def PRIME_STR : String :=
  "0x800000000000011000000000000000000000000000000000000000000000001"

/-- `felt::FIELD`, the prime as a `(u128, u128)` high/low pair, transcribed
from the source: `((1 << 123) + (17 << 64), 1)`. -/
def FIELD : Nat × Nat := ((1 <<< 123) + (17 <<< 64), 1)

/-- Value of one lowercase hexadecimal digit. -/
def hexDigitVal (c : Char) : Option Nat :=
  if '0' ≤ c ∧ c ≤ '9' then some (c.toNat - '0'.toNat)
  else if 'a' ≤ c ∧ c ≤ 'f' then some (c.toNat - 'a'.toNat + 10)
  else none

/-- Numeric value of a string of lowercase hexadecimal digits. -/
def parseHexDigits (cs : List Char) : Option Nat :=
  cs.foldl
    (fun acc c =>
      match acc, hexDigitVal c with
      | some a, some d => some (16 * a + d)
      | _, _ => none)
    (some 0)

/-- Numeric value of a nonempty `0x`-prefixed lowercase hexadecimal string. -/
def parseHex (s : String) : Option Nat :=
  match s.data with
  | '0' :: 'x' :: c :: rest => parseHexDigits (c :: rest)
  | _ => none

/-- One capability assertion of the `assert_felt_impl!` macro: each
constructor names one `assert_*` helper the macro defines. -/
inductive FeltCapability where
  | new_felt
  | felt_ops
  | add
  | add_ref
  | add_u32
  | add_usize
  | add_ref_usize
  | add_assign
  | neg
  | sub
  | sub_ref
  | sub_assign
  | mul
  | mul_ref
  | mul_assign
  | div
  | div_ref
  | shl_u32
  | shl_usize
  | shl_ref_usize
  | shr_u32
  | bitand
  | bitand_ref
  | bitor
  | bitxor
  | sum
  | pow
  | pow_ref
  | num
  | zero
  | one
  | bounded
  | signed
  | from_primitive
  | to_primitive
  | display
  | debug
deriving DecidableEq, Fintype

/-- The sequence of capability assertions the `assert_all` body of
`assert_felt_impl!(Felt)` actually instantiates, transcribed call by call
from the source.  The `assert_felt_ops` call is commented out there and so
does not appear. -/
def assert_all_checked : List FeltCapability :=
  [.new_felt,
   .add, .add_ref, .add_u32, .add_usize, .add_ref_usize, .add_assign,
   .sub, .sub_ref, .sub_assign,
   .mul, .mul_ref, .mul_assign,
   .div, .div_ref,
   .neg,
   .bitand, .bitand_ref, .bitor, .bitxor,
   .sum,
   .pow, .pow_ref,
   .num, .zero, .one, .bounded, .signed,
   .from_primitive, .to_primitive,
   .shl_u32, .shl_usize, .shl_ref_usize, .shr_u32,
   .display, .debug]

/-- C8: the exported field-prime constants both denote exactly
P = 2^251 + 17·2^192 + 1: `PRIME_STR` is the canonical (`0x`-prefixed,
lowercase, no leading zero — its first digit is `8`) hexadecimal of P, and
`FIELD`, read as high·2^128 + low with both halves in u128 range, equals P. -/
theorem felt_prime_constants_exact :
    parseHex PRIME_STR = some PRIME ∧
    PRIME_STR.data.take 3 = ['0', 'x', '8'] ∧
    FIELD.1 * 2 ^ 128 + FIELD.2 = PRIME ∧
    FIELD.1 < 2 ^ 128 ∧ FIELD.2 < 2 ^ 128 := by
  refine ⟨?_, ?_, ?_, ?_, ?_⟩ <;> decide

/-- C9: `new_dict` with initial map `{5: 5}` on a fresh manager and fresh
allocator returns base `(segment 0, offset 0)` as a relocatable value, the
stored tracker at segment 0 is the `Simple` tracker over `{5: 5}` with that
base as `current_ptr`, and exactly one memory segment has been created. -/
theorem new_dict_end_to_end_initial_five :
    (DictManager.new.new_dict ⟨0⟩ ⟨[(Felt.new 5, Felt.new 5)]⟩).1
        = .ok (.RelocatableValue ⟨0, 0⟩) ∧
    AssocMap.get? (DictManager.new.new_dict ⟨0⟩ ⟨[(Felt.new 5, Felt.new 5)]⟩).2.1.trackers 0
        = some (DictTracker.new_with_initial ⟨0, 0⟩ ⟨[(Felt.new 5, Felt.new 5)]⟩) ∧
    (DictManager.new.new_dict ⟨0⟩ ⟨[(Felt.new 5, Felt.new 5)]⟩).2.2.num_segments = 1 := by
  refine ⟨?_, ?_, ?_⟩ <;> rfl

/-- C3: for every manager state and pointer, `get_tracker` and
`get_tracker_mut` fail with `NoDictTracker(ptr.segment_index)` when no
tracker exists for the pointer's segment; when a tracker exists but its
`current_ptr` differs from the pointer they fail with
`MismatchedDictPtr(tracker.current_ptr, ptr)`; and they return the tracker
exactly when `tracker.current_ptr = ptr`. -/
theorem get_tracker_pointer_validation (mgr : DictManager) (ptr : Relocatable) :
    (AssocMap.get? mgr.trackers ptr.segment_index = none →
      mgr.get_tracker ptr = .error (.NoDictTracker ptr.segment_index) ∧
      mgr.get_tracker_mut ptr = .error (.NoDictTracker ptr.segment_index)) ∧
    (∀ t, AssocMap.get? mgr.trackers ptr.segment_index = some t →
      (t.current_ptr ≠ ptr →
        mgr.get_tracker ptr = .error (.MismatchedDictPtr t.current_ptr ptr) ∧
        mgr.get_tracker_mut ptr = .error (.MismatchedDictPtr t.current_ptr ptr)) ∧
      (t.current_ptr = ptr →
        mgr.get_tracker ptr = .ok t ∧
        mgr.get_tracker_mut ptr = .ok t)) := by
  constructor
  · intro h
    constructor <;> simp [DictManager.get_tracker, DictManager.get_tracker_mut, h]
  · intro t ht
    constructor
    · intro hne
      constructor <;>
        simp [DictManager.get_tracker, DictManager.get_tracker_mut, ht, hne]
    · intro heq
      constructor <;>
        simp [DictManager.get_tracker, DictManager.get_tracker_mut, ht, heq]

/-- Concrete instance of C3: with a single tracker at segment 0 whose
cursor is `(0, 0)`, a matching pointer resolves to that tracker, a
wrong-offset pointer yields `MismatchedDictPtr`, and a pointer into an
untracked segment yields `NoDictTracker`. -/
theorem get_tracker_pointer_validation_witness :
    (DictManager.mk ⟨[(0, DictTracker.new_empty ⟨0, 0⟩)]⟩).get_tracker ⟨0, 0⟩
        = .ok (DictTracker.new_empty ⟨0, 0⟩) ∧
    (DictManager.mk ⟨[(0, DictTracker.new_empty ⟨0, 0⟩)]⟩).get_tracker ⟨0, 3⟩
        = .error (.MismatchedDictPtr ⟨0, 0⟩ ⟨0, 3⟩) ∧
    (DictManager.mk ⟨[(0, DictTracker.new_empty ⟨0, 0⟩)]⟩).get_tracker ⟨7, 0⟩
        = .error (.NoDictTracker 7) := by
  refine ⟨?_, ?_, ?_⟩
  · exact ((get_tracker_pointer_validation
      (DictManager.mk ⟨[(0, DictTracker.new_empty ⟨0, 0⟩)]⟩) ⟨0, 0⟩).2
      (DictTracker.new_empty ⟨0, 0⟩) (by decide)).2 (by decide) |>.1
  · exact ((get_tracker_pointer_validation
      (DictManager.mk ⟨[(0, DictTracker.new_empty ⟨0, 0⟩)]⟩) ⟨0, 3⟩).2
      (DictTracker.new_empty ⟨0, 0⟩) (by decide)).1 (by decide) |>.1
  · exact ((get_tracker_pointer_validation
      (DictManager.mk ⟨[(0, DictTracker.new_empty ⟨0, 0⟩)]⟩) ⟨7, 0⟩).1
      (by decide)).1

/-- C4: for every `Default`-mode tracker and key absent from its map,
`get_value` succeeds with the default value and persists `(key, default)`
into the map, so the subsequent dictionary copy contains that pair. -/
theorem default_dict_get_value_materializes
    (dict : HMap) (dv : Felt) (ptr : Relocatable) (key : Felt)
    (h : AssocMap.get? dict key = none) :
    ((DictTracker.mk (.DefaultDictionary dict dv) ptr).get_value key).1 = .ok dv ∧
    AssocMap.get?
        (((DictTracker.mk (.DefaultDictionary dict dv) ptr).get_value key).2).get_dictionary_copy
        key = some dv := by
  constructor
  · simp [DictTracker.get_value, Dictionary.get, h]
  · simp [DictTracker.get_value, Dictionary.get, h, DictTracker.get_dictionary_copy,
      AssocMap.get?_insert_self]

/-- Concrete instance of C4: a fresh default dictionary with default `7` and
empty initial map returns `7` for key `1`, and the copy taken afterwards
contains the pair `(1, 7)`. -/
theorem default_dict_get_value_materializes_witness :
    ((DictTracker.mk (.DefaultDictionary ⟨[]⟩ (Felt.new 7)) ⟨0, 0⟩).get_value (Felt.new 1)).1
        = .ok (Felt.new 7) ∧
    AssocMap.get?
        (((DictTracker.mk (.DefaultDictionary ⟨[]⟩ (Felt.new 7)) ⟨0, 0⟩).get_value
            (Felt.new 1)).2).get_dictionary_copy
        (Felt.new 1) = some (Felt.new 7) :=
  default_dict_get_value_materializes ⟨[]⟩ (Felt.new 7) ⟨0, 0⟩ (Felt.new 1) rfl

/-- C6: for every `Simple`-mode tracker and key absent from its map,
`get_value` fails with `NoValueForKey(key)` and leaves the tracker — hence
the map returned by `get_dictionary_copy` — unchanged. -/
theorem simple_dict_get_value_miss
    (dict : HMap) (ptr : Relocatable) (key : Felt)
    (h : AssocMap.get? dict key = none) :
    ((DictTracker.mk (.SimpleDictionary dict) ptr).get_value key).1
        = .error (.NoValueForKey key) ∧
    ((DictTracker.mk (.SimpleDictionary dict) ptr).get_value key).2
        = DictTracker.mk (.SimpleDictionary dict) ptr ∧
    (((DictTracker.mk (.SimpleDictionary dict) ptr).get_value key).2).get_dictionary_copy
        = dict := by
  refine ⟨?_, ?_, ?_⟩ <;>
    simp [DictTracker.get_value, Dictionary.get, h, DictTracker.get_dictionary_copy]

/-- Concrete instance of C6: a fresh simple dictionary misses on key `1`
with `NoValueForKey(1)` and its copy stays empty. -/
theorem simple_dict_get_value_miss_witness :
    ((DictTracker.mk (.SimpleDictionary ⟨[]⟩) ⟨0, 0⟩).get_value (Felt.new 1)).1
        = .error (.NoValueForKey (Felt.new 1)) ∧
    (((DictTracker.mk (.SimpleDictionary ⟨[]⟩) ⟨0, 0⟩).get_value (Felt.new 1)).2).get_dictionary_copy
        = (⟨[]⟩ : HMap) :=
  ⟨(simple_dict_get_value_miss ⟨[]⟩ ⟨0, 0⟩ (Felt.new 1) rfl).1,
   (simple_dict_get_value_miss ⟨[]⟩ ⟨0, 0⟩ (Felt.new 1) rfl).2.2⟩

/-- C5: whenever the allocator hands back a segment index that already has a
tracker — whatever mode that tracker is in — both `new_dict` and
`new_default_dict` fail with `CantCreateDictionaryOnTakenSegment` carrying
that index. -/
theorem taken_segment_creation_fails
    (mgr : DictManager) (vm : VirtualMachine) (initial : HMap)
    (dv : Felt) (init2 : Option HMap)
    (h : AssocMap.contains mgr.trackers vm.num_segments = true) :
    (mgr.new_dict vm initial).1
        = .error (.CantCreateDictionaryOnTakenSegment vm.num_segments) ∧
    (mgr.new_default_dict vm dv init2).1
        = .error (.CantCreateDictionaryOnTakenSegment vm.num_segments) := by
  constructor <;>
    simp [DictManager.new_dict, DictManager.new_default_dict,
      VirtualMachine.add_memory_segment, h]

/-- Concrete instance of C5: with segment 0 already claimed by a `Simple`
tracker (respectively by a `Default` tracker) and the allocator about to
return index 0, both creation entrypoints fail with
`CantCreateDictionaryOnTakenSegment(0)`. -/
theorem taken_segment_creation_fails_witness :
    ((DictManager.mk ⟨[(0, DictTracker.new_empty ⟨0, 0⟩)]⟩).new_dict ⟨0⟩ ⟨[]⟩).1
        = .error (.CantCreateDictionaryOnTakenSegment 0) ∧
    ((DictManager.mk ⟨[(0, DictTracker.new_default_dict ⟨0, 0⟩ (Felt.new 6) none)]⟩).new_default_dict
        ⟨0⟩ (Felt.new 7) none).1
        = .error (.CantCreateDictionaryOnTakenSegment 0) :=
  ⟨(taken_segment_creation_fails
      (DictManager.mk ⟨[(0, DictTracker.new_empty ⟨0, 0⟩)]⟩) ⟨0⟩ ⟨[]⟩
      (Felt.new 7) none rfl).1,
   (taken_segment_creation_fails
      (DictManager.mk ⟨[(0, DictTracker.new_default_dict ⟨0, 0⟩ (Felt.new 6) none)]⟩) ⟨0⟩ ⟨[]⟩
      (Felt.new 7) none rfl).2⟩

/-- C7: on an untracked fresh base, `new_dict` fails with the
address-validity error `AddressInTemporarySegment` (wrapped as an internal
VM error) and creates no tracker when the allocator returns a negative
segment index; otherwise it installs a `Simple` tracker seeded with the
given initial map and returns the base address. -/
theorem new_dict_guards_and_creation
    (mgr : DictManager) (vm : VirtualMachine) (initial : HMap)
    (h : AssocMap.contains mgr.trackers vm.num_segments = false) :
    (vm.num_segments < 0 →
      (mgr.new_dict vm initial).1
          = .error (.Internal (.MemoryError (.AddressInTemporarySegment vm.num_segments))) ∧
      (mgr.new_dict vm initial).2.1 = mgr) ∧
    (0 ≤ vm.num_segments →
      (mgr.new_dict vm initial).1 = .ok (.RelocatableValue ⟨vm.num_segments, 0⟩) ∧
      (mgr.new_dict vm initial).2.1.trackers
          = AssocMap.insert mgr.trackers vm.num_segments
              (DictTracker.new_with_initial ⟨vm.num_segments, 0⟩ initial)) := by
  constructor
  · intro hneg
    constructor <;>
      simp [DictManager.new_dict, VirtualMachine.add_memory_segment, h, hneg]
  · intro hpos
    have hnn : ¬vm.num_segments < 0 := Int.not_lt.mpr hpos
    constructor <;>
      simp [DictManager.new_dict, VirtualMachine.add_memory_segment, h, hnn]

/-- Concrete instance of C7: on a fresh manager, an allocator returning base
`(-1, 0)` makes `new_dict` fail with the temporary-segment error and leaves
the manager unchanged, while a fresh allocator at index 0 creates the
`Simple` tracker and returns the base. -/
theorem new_dict_guards_and_creation_witness :
    (DictManager.new.new_dict ⟨-1⟩ ⟨[]⟩).1
        = .error (.Internal (.MemoryError (.AddressInTemporarySegment (-1)))) ∧
    (DictManager.new.new_dict ⟨-1⟩ ⟨[]⟩).2.1 = DictManager.new ∧
    (DictManager.new.new_dict ⟨0⟩ ⟨[]⟩).1 = .ok (.RelocatableValue ⟨0, 0⟩) :=
  ⟨((new_dict_guards_and_creation DictManager.new ⟨-1⟩ ⟨[]⟩ rfl).1 (by decide)).1,
   ((new_dict_guards_and_creation DictManager.new ⟨-1⟩ ⟨[]⟩ rfl).1 (by decide)).2,
   ((new_dict_guards_and_creation DictManager.new ⟨0⟩ ⟨[]⟩ rfl).2 (by decide)).1⟩

/-- C10: whenever `new_dict` or `new_default_dict` fails, the manager —
including its trackers map — is returned unchanged, but the segment
allocation ran before the guards, so the VM's segment count has still grown
by one: creation is atomic on the manager but not on the VM. -/
theorem failed_creation_frame_effect
    (mgr : DictManager) (vm : VirtualMachine) (initial : HMap)
    (dv : Felt) (init2 : Option HMap) :
    (∀ e, (mgr.new_dict vm initial).1 = .error e →
      (mgr.new_dict vm initial).2.1 = mgr ∧
      (mgr.new_dict vm initial).2.2.num_segments = vm.num_segments + 1) ∧
    (∀ e, (mgr.new_default_dict vm dv init2).1 = .error e →
      (mgr.new_default_dict vm dv init2).2.1 = mgr ∧
      (mgr.new_default_dict vm dv init2).2.2.num_segments = vm.num_segments + 1) := by
  constructor
  · intro e he
    by_cases h1 : AssocMap.contains mgr.trackers vm.num_segments = true
    · constructor <;>
        simp [DictManager.new_dict, VirtualMachine.add_memory_segment, h1]
    · rw [Bool.not_eq_true] at h1
      by_cases h2 : vm.num_segments < 0
      · constructor <;>
          simp [DictManager.new_dict, VirtualMachine.add_memory_segment, h1, h2]
      · exfalso
        simp [DictManager.new_dict, VirtualMachine.add_memory_segment, h1, h2] at he
  · intro e he
    by_cases h1 : AssocMap.contains mgr.trackers vm.num_segments = true
    · constructor <;>
        simp [DictManager.new_default_dict, VirtualMachine.add_memory_segment, h1]
    · rw [Bool.not_eq_true] at h1
      exfalso
      simp [DictManager.new_default_dict, VirtualMachine.add_memory_segment, h1] at he

/-- Concrete instance of C10: a failing `new_dict` (taken segment 0) and a
failing `new_default_dict` both leave the single-tracker manager intact yet
bump the VM segment counter from 0 to 1. -/
theorem failed_creation_frame_effect_witness :
    ((DictManager.mk ⟨[(0, DictTracker.new_empty ⟨0, 0⟩)]⟩).new_dict ⟨0⟩ ⟨[]⟩).2.1
        = DictManager.mk ⟨[(0, DictTracker.new_empty ⟨0, 0⟩)]⟩ ∧
    ((DictManager.mk ⟨[(0, DictTracker.new_empty ⟨0, 0⟩)]⟩).new_dict ⟨0⟩ ⟨[]⟩).2.2.num_segments
        = 1 ∧
    ((DictManager.mk ⟨[(0, DictTracker.new_empty ⟨0, 0⟩)]⟩).new_default_dict
        ⟨0⟩ (Felt.new 7) none).2.1
        = DictManager.mk ⟨[(0, DictTracker.new_empty ⟨0, 0⟩)]⟩ ∧
    ((DictManager.mk ⟨[(0, DictTracker.new_empty ⟨0, 0⟩)]⟩).new_default_dict
        ⟨0⟩ (Felt.new 7) none).2.2.num_segments = 1 :=
  ⟨((failed_creation_frame_effect
      (DictManager.mk ⟨[(0, DictTracker.new_empty ⟨0, 0⟩)]⟩) ⟨0⟩ ⟨[]⟩ (Felt.new 7) none).1
      (.CantCreateDictionaryOnTakenSegment 0) rfl).1,
   ((failed_creation_frame_effect
      (DictManager.mk ⟨[(0, DictTracker.new_empty ⟨0, 0⟩)]⟩) ⟨0⟩ ⟨[]⟩ (Felt.new 7) none).1
      (.CantCreateDictionaryOnTakenSegment 0) rfl).2,
   ((failed_creation_frame_effect
      (DictManager.mk ⟨[(0, DictTracker.new_empty ⟨0, 0⟩)]⟩) ⟨0⟩ ⟨[]⟩ (Felt.new 7) none).2
      (.CantCreateDictionaryOnTakenSegment 0) rfl).1,
   ((failed_creation_frame_effect
      (DictManager.mk ⟨[(0, DictTracker.new_empty ⟨0, 0⟩)]⟩) ⟨0⟩ ⟨[]⟩ (Felt.new 7) none).2
      (.CantCreateDictionaryOnTakenSegment 0) rfl).2⟩

/-- Counterexample to C1: when the allocator returns the negative base
`(-1, 0)`, `new_default_dict` does not fail with the temporary-segment
error — it succeeds, returns the negative base, and installs a tracker for
segment `-1`.  The negative-index guard of `new_dict` has no counterpart in
`new_default_dict`. -/
theorem new_default_dict_accepts_negative_segment :
    (DictManager.new.new_default_dict ⟨-1⟩ (Felt.new 7) none).1
        = .ok (.RelocatableValue ⟨-1, 0⟩) ∧
    AssocMap.contains (DictManager.new.new_default_dict ⟨-1⟩ (Felt.new 7) none).2.1.trackers (-1)
        = true := by
  constructor <;> rfl

/-- C1 amended: `new_default_dict` applies only the segment-collision guard;
when the allocator returns a base with a negative segment index that is not
already tracked, the call succeeds, returns that base, and installs a
`Default` tracker for the negative segment. -/
theorem new_default_dict_no_negative_guard
    (mgr : DictManager) (vm : VirtualMachine) (dv : Felt) (init2 : Option HMap)
    (h : AssocMap.contains mgr.trackers vm.num_segments = false)
    (_hneg : vm.num_segments < 0) :
    (mgr.new_default_dict vm dv init2).1
        = .ok (.RelocatableValue ⟨vm.num_segments, 0⟩) ∧
    (mgr.new_default_dict vm dv init2).2.1.trackers
        = AssocMap.insert mgr.trackers vm.num_segments
            (DictTracker.new_default_dict ⟨vm.num_segments, 0⟩ dv init2) := by
  constructor <;>
    simp [DictManager.new_default_dict, VirtualMachine.add_memory_segment, h]

/-- Concrete instance of the amended C1: with a fresh manager and the
allocator at index `-1`, `new_default_dict` succeeds and installs a tracker
at segment `-1`. -/
theorem new_default_dict_no_negative_guard_witness :
    (DictManager.new.new_default_dict ⟨-1⟩ (Felt.new 7) none).1
        = .ok (.RelocatableValue ⟨-1, 0⟩) ∧
    (DictManager.new.new_default_dict ⟨-1⟩ (Felt.new 7) none).2.1.trackers
        = AssocMap.insert AssocMap.empty (-1)
            (DictTracker.new_default_dict ⟨-1, 0⟩ (Felt.new 7) none) :=
  new_default_dict_no_negative_guard DictManager.new ⟨-1⟩ (Felt.new 7) none rfl (by decide)

/-- Counterexample to C2: the `assert_felt_ops` assertion — the one that
would require the `FeltOps` operations (modpow, mod_floor, div_floor,
div_mod_floor, iter_u64_digits, byte/string conversions, div_rem, to_bigint,
to_bigint_unsigned, mul_inverse, sqrt) — is not among the assertions that
`assert_all` instantiates: its call is commented out in the source. -/
theorem conformance_check_omits_felt_ops :
    FeltCapability.felt_ops ∉ assert_all_checked := by
  decide

/-- C2 amended: the compile-time conformance check instantiated against the
chosen backend covers every capability assertion except `assert_felt_ops` —
all arithmetic, conversion and numeric-trait assertions are present — but
the `FeltOps` assertion is commented out, so a backend missing a `FeltOps`
operation would still build. -/
theorem conformance_check_coverage (c : FeltCapability) :
    c ∈ assert_all_checked ↔ c ≠ FeltCapability.felt_ops := by
  revert c
  decide

/-- Concrete instance of the amended C2: the addition assertion is
instantiated by the check, while the `FeltOps` assertion is not. -/
theorem conformance_check_coverage_witness :
    FeltCapability.add ∈ assert_all_checked ∧
    FeltCapability.felt_ops ∉ assert_all_checked :=
  ⟨(conformance_check_coverage FeltCapability.add).mpr (by decide),
   fun h => absurd rfl ((conformance_check_coverage FeltCapability.felt_ops).mp h)⟩
